import Mathlib

/-!
Shallow embedding of the bird-feeder monitoring program
(`src/bird-feeder/main.py`) for verification of its specification.

Conventions of the embedding:
* Python floats (timestamps, weights, durations) are modelled as `ℚ`;
  no claim under scrutiny depends on binary floating-point rounding.
* Python ints are modelled as `ℤ` (thresholds) or `ℕ` (counters, pixel counts).
* The mutable fields of `BirdFeeder` touched by the fusion logic become an
  explicit state record threaded through a tick function.
* Effectful calls (`print`, photo capture, serial writes, sleeps) are modelled
  as explicit outputs of the corresponding functions.
-/

namespace BirdFeederModel

/-- Configuration values loaded once from the environment in the source:
`SCALE_ENABLED`, `MOTION_ENABLED`, `MOTION_THRESHOLD`, `WEIGHT_THRESHOLD`,
`SCALE_WAIT_TIME` (the spec's APPROACH_WAIT), `FRAMES_BEFORE_DEPARTURE`
(the spec's DEPARTURE_FRAMES) and `PHOTO_COOLDOWN`. -/
structure Config where
  scaleEnabled : Bool
  motionEnabled : Bool
  motionThreshold : ℤ
  weightThreshold : ℤ
  scaleWaitTime : ℚ
  framesBeforeDeparture : ℕ
  photoCooldown : ℚ
  deriving Repr, DecidableEq

/-- The mutable presence state of `BirdFeeder` (`__init__`, lines 163-166):
`bird_present`, `bird_approaching`, `no_motion_frames`, `approach_time`. -/
structure FeederState where
  bird_present : Bool
  bird_approaching : Bool
  no_motion_frames : ℕ
  approach_time : Option ℚ
  deriving Repr, DecidableEq

/-- `BirdFeeder.__init__`: `bird_present = False`, `no_motion_frames = 0`,
`bird_approaching = False`, `approach_time = None`. -/
def initState : FeederState :=
  { bird_present := false, bird_approaching := false
    no_motion_frames := 0, approach_time := none }

/-- One tick's sensor inputs: the value returned by `get_weight()` (possibly
`None`), the value returned by `detect_motion()` (0 when motion is disabled),
and `time.time()` at the top of `read_sensors`. -/
structure Sample where
  weight : Option ℚ
  motion : ℕ
  now : ℚ
  deriving Repr, DecidableEq

/-- Events the tick function can emit: `on_bird_landed(weight, detection_type)`
with `detection_type ∈ {"scale", "motion", "motion-only"}`, and `on_bird_left()`. -/
inductive Event where
  | landed (weight : Option ℚ) (detectionType : String)
  | left
  deriving Repr, DecidableEq

/-- `motion_detected = motion > MOTION_THRESHOLD` (line 200). -/
def motionDetected (cfg : Config) (s : Sample) : Bool :=
  decide (cfg.motionThreshold < (s.motion : ℤ))

/-- `weight_detected = weight is not None and weight > WEIGHT_THRESHOLD` (line 201). -/
def weightDetected (cfg : Config) (s : Sample) : Bool :=
  match s.weight with
  | none => false
  | some w => decide ((cfg.weightThreshold : ℚ) < w)

/-- `BirdFeeder.read_sensors` (lines 194-257), as a pure transition: given the
current state and the tick's sample, produce the next state and the emitted
event (the source calls `on_bird_landed` / `on_bird_left` at most once per
tick).  In the `elif current_time - self.approach_time > SCALE_WAIT_TIME`
branch the source reads `self.approach_time`, which is necessarily set there
because the branch requires `self.bird_approaching`; we model the unreachable
`None` case with `getD 0`. -/
def read_sensors (cfg : Config) (st : FeederState) (s : Sample) :
    FeederState × Option Event :=
  if cfg.scaleEnabled && cfg.motionEnabled then
    -- dual-sensor logic
    if motionDetected cfg s && !(weightDetected cfg s) && !st.bird_present then
      if !st.bird_approaching then
        ({ st with bird_approaching := true, approach_time := some s.now }, none)
      else if cfg.scaleWaitTime < s.now - st.approach_time.getD 0 then
        ({ st with bird_present := true, bird_approaching := false,
                   no_motion_frames := 0 },
         some (.landed s.weight "motion-only"))
      else
        (st, none)
    else if weightDetected cfg s && !st.bird_present then
      ({ st with bird_present := true, bird_approaching := false,
                 no_motion_frames := 0 },
       some (.landed s.weight "scale"))
    else if st.bird_present then
      if !(motionDetected cfg s) && !(weightDetected cfg s) then
        if cfg.framesBeforeDeparture ≤ st.no_motion_frames + 1 then
          ({ st with bird_present := false, bird_approaching := false,
                     no_motion_frames := 0 },
           some .left)
        else
          ({ st with no_motion_frames := st.no_motion_frames + 1 }, none)
      else
        ({ st with no_motion_frames := 0 }, none)
    else
      (st, none)
  else
    -- single-sensor logic
    if (weightDetected cfg s || motionDetected cfg s) && !st.bird_present then
      ({ st with bird_present := true, no_motion_frames := 0 },
       some (.landed s.weight (if cfg.scaleEnabled then "scale" else "motion")))
    else if !(weightDetected cfg s || motionDetected cfg s) && st.bird_present then
      if cfg.framesBeforeDeparture ≤ st.no_motion_frames + 1 then
        ({ st with bird_present := false, no_motion_frames := 0 }, some .left)
      else
        ({ st with no_motion_frames := st.no_motion_frames + 1 }, none)
    else if weightDetected cfg s || motionDetected cfg s then
      ({ st with no_motion_frames := 0 }, none)
    else
      (st, none)

/-- Iterate `read_sensors` over a list of tick samples (the driver loop at the
bottom of the file), collecting the emitted events in order. -/
def runTicks (cfg : Config) (st : FeederState) : List Sample → FeederState × List Event
  | [] => (st, [])
  | s :: rest =>
    let step := read_sensors cfg st s
    let tail := runTicks cfg step.1 rest
    (tail.1, step.2.toList ++ tail.2)

theorem runTicks_nil (cfg : Config) (st : FeederState) :
    runTicks cfg st [] = (st, []) := rfl

theorem runTicks_cons (cfg : Config) (st : FeederState) (s : Sample) (rest : List Sample) :
    runTicks cfg st (s :: rest) =
      ((runTicks cfg (read_sensors cfg st s).1 rest).1,
       (read_sensors cfg st s).2.toList ++ (runTicks cfg (read_sensors cfg st s).1 rest).2) := rfl

/-- A dual-mode configuration with the source's default thresholds
(MOTION_THRESHOLD 1000, WEIGHT_THRESHOLD 5, SCALE_WAIT_TIME 1.0,
FRAMES_BEFORE_DEPARTURE 10, PHOTO_COOLDOWN 5.0), used for concrete runs. -/
def dualCfg : Config :=
  { scaleEnabled := true, motionEnabled := true
    motionThreshold := 1000, weightThreshold := 5
    scaleWaitTime := 1, framesBeforeDeparture := 10
    photoCooldown := 5 }

example : read_sensors dualCfg initState ⟨none, 2000, 0⟩ =
    ({ initState with bird_approaching := true, approach_time := some 0 }, none) := by
  decide

example : read_sensors dualCfg { initState with bird_approaching := true, approach_time := some 0 }
    ⟨some 10, 0, (1:ℚ)/2⟩ =
    ({ bird_present := true, bird_approaching := false, no_motion_frames := 0,
       approach_time := some 0 }, some (.landed (some 10) "scale")) := by
  decide

/-! ## Weight telemetry link (`SerialWeightSensor`) -/

/-- Python's `str.split(sep)` for a one-character separator, over `List Char`:
splits at every occurrence of `c`; `"".split(c) = [""]`. -/
def splitChar (c : Char) : List Char → List (List Char)
  | [] => [[]]
  | x :: xs =>
    if x = c then [] :: splitChar c xs
    else
      match splitChar c xs with
      | [] => [[x]]
      | y :: ys => (x :: y) :: ys

/-- `splitChar` never returns the empty list of fields. -/
theorem splitChar_ne_nil (c : Char) (l : List Char) : splitChar c l ≠ [] := by
  cases l with
  | nil => simp [splitChar]
  | cons x xs =>
    by_cases h : x = c <;> simp only [splitChar, h, if_true, if_false, reduceIte]
    · simp
    · cases splitChar c xs <;> simp

/-- Python's `float(s)` restricted to plain decimal literals, which is the
shape of every `WEIGHT:` payload the remote device emits (`f"{weight:.2f}"`
in the Pico firmware): optional sign, digits, optional fractional part, at
least one digit overall.  Exotic accepted forms of CPython's `float`
(exponents, `inf`/`nan`, underscores, surrounding whitespace) are not sent
on this wire and are not modelled.  Returns `none` exactly when CPython
would raise `ValueError` on such a literal. -/
def parseUnsignedFloat (s : List Char) : Option ℚ :=
  match splitChar '.' s with
  | [ip] =>
    if ip ≠ [] ∧ ip.all Char.isDigit then
      some ((ip.foldl (fun a c => 10 * a + (c.toNat - '0'.toNat)) 0 : ℕ) : ℚ)
    else none
  | [ip, fp] =>
    if (ip ++ fp) ≠ [] ∧ ip.all Char.isDigit ∧ fp.all Char.isDigit then
      some (((ip.foldl (fun a c => 10 * a + (c.toNat - '0'.toNat)) 0 : ℕ) : ℚ)
        + ((fp.foldl (fun a c => 10 * a + (c.toNat - '0'.toNat)) 0 : ℕ) : ℚ) / (10 ^ fp.length))
    else none
  | _ => none

/-- `float(s)` including an optional leading sign. -/
def parseFloat (s : List Char) : Option ℚ :=
  match s with
  | '-' :: rest => (parseUnsignedFloat rest).map (fun q => -q)
  | '+' :: rest => parseUnsignedFloat rest
  | _ => parseUnsignedFloat s

/-- One iteration of `SerialWeightSensor._read_loop` (lines 107-136) acting on
the only state it mutates, `latest_weight`: a `WEIGHT:` line publishes
`float(line.split(":")[1])` when the conversion succeeds and is ignored on
`ValueError`; `ERROR:`/`TARED`/`TARING` lines only print diagnostics and
leave `latest_weight` unchanged, as does any other line.  The index `[1]`
cannot fail because a line with prefix `WEIGHT:` splits into at least two
fields; the unreachable case is modelled with `getD`. -/
def processLine (latest : Option ℚ) (line : List Char) : Option ℚ :=
  if ("WEIGHT:".data).isPrefixOf line then
    match parseFloat ((splitChar ':' line).getD 1 []) with
    | some w => some w
    | none => latest
  else latest

/-- Feed a sequence of lines through the reader loop. -/
def processLines (latest : Option ℚ) (lines : List (List Char)) : Option ℚ :=
  lines.foldl processLine latest

example : processLine none "WEIGHT:12.34".data = some (617/50 : ℚ) := by
  simp +decide [processLine, parseFloat, parseUnsignedFloat, splitChar]
  norm_num
example : processLine (some 1) "WEIGHT:bogus".data = some 1 := by
  simp +decide [processLine, parseFloat, parseUnsignedFloat, splitChar]
example : processLine (some 1) "ERROR:NO_READING".data = some 1 := by
  simp +decide [processLine]

/-- The outward-visible effects of one call to `SerialWeightSensor.tare`
(lines 142-150): what was written to the transport, how long the call slept
before returning, and whether an exception escaped to the caller. -/
structure TareResult where
  wrote : Option (List Char)
  settle : ℚ
  raised : Bool
  deriving Repr, DecidableEq

/-- `SerialWeightSensor.tare`: guarded by `self.connected and self.serial`;
on the success path writes `b"TARE\n"`, flushes, and sleeps 1 second; any
exception from the write path is caught and only printed.  `writeOk` models
whether `self.serial.write`/`flush` raises. -/
def tare (connected : Bool) (hasSerial : Bool) (writeOk : Bool) : TareResult :=
  if connected && hasSerial then
    if writeOk then
      { wrote := some "TARE\n".data, settle := 1, raised := false }
    else
      { wrote := none, settle := 0, raised := false }
  else
    { wrote := none, settle := 0, raised := false }

/-! ## Motion sampler (`BirdFeeder.detect_motion`) -/

/-- `BirdFeeder.detect_motion` (lines 301-317) acting on its only state,
`self.prev_frame`.  A frame is the grayscale image as a list of pixel
intensities (the `cv2.cvtColor` output); `camRead` is `none` when
`self.cap.read()` returns `ret = False`.  Returns the motion-pixel count
`np.sum(cv2.absdiff(gray, prev) > 30)` and the new stored frame. -/
def detect_motion (prev : Option (List ℕ)) (camRead : Option (List ℕ)) :
    ℕ × Option (List ℕ) :=
  match camRead with
  | none => (0, prev)
  | some gray =>
    match prev with
    | none => (0, some gray)
    | some p =>
      ((gray.zip p).countP (fun ab => decide (30 < ((ab.1 : ℤ) - (ab.2 : ℤ)).natAbs)),
       some gray)

/-! ## Capture gate (`BirdFeeder.take_photo`) -/

/-- `BirdFeeder.take_photo` (lines 319-346) restricted to the capture gate and
its state `self.last_photo_time`.  The cooldown test is the Python truthiness
of `self.last_photo_time and current_time - self.last_photo_time <
PHOTO_COOLDOWN`: it suppresses only when a previous timestamp exists, is a
truthy float (≠ 0.0), and lies within the cooldown.  `captureOk` models
`self.cap.isOpened()` together with `ret` from the final read; only a
successful capture updates `last_photo_time`.  Returns (photo taken?, new
`last_photo_time`). -/
def take_photo (cfg : Config) (lastPhotoTime : Option ℚ) (now : ℚ)
    (captureOk : Bool) : Bool × Option ℚ :=
  if (match lastPhotoTime with
      | some t => !(decide (t = 0)) && decide (now - t < cfg.photoCooldown)
      | none => false) then
    (false, lastPhotoTime)
  else if captureOk then
    (true, some now)
  else
    (false, lastPhotoTime)

example : take_photo dualCfg none 0 true = (true, some 0) := by
  simp [take_photo]
example : take_photo dualCfg (some 0) 3 true = (true, some 3) := by
  simp [take_photo]
example : take_photo dualCfg (some 1) 4 true = (false, some 1) := by
  simp [take_photo, dualCfg]
  norm_num

/-! ## Step lemmas for the fusion engine -/

/-- Dual mode, `Idle`, motion without weight: enter `Approaching`,
record the approach time, no event (lines 206-210). -/
theorem step_idle_approach (cfg : Config) (st : FeederState) (s : Sample)
    (hse : cfg.scaleEnabled = true) (hme : cfg.motionEnabled = true)
    (hp : st.bird_present = false) (ha : st.bird_approaching = false)
    (hmd : motionDetected cfg s = true) (hwd : weightDetected cfg s = false) :
    read_sensors cfg st s =
      ({ st with bird_approaching := true, approach_time := some s.now }, none) := by
  simp [read_sensors, hse, hme, hp, ha, hmd, hwd]

/-- Dual mode, `Approaching`, motion without weight, wait budget exhausted:
enter `Present`, emit `Landed{weight, "motion-only"}` (lines 213-218). -/
theorem step_approach_timeout (cfg : Config) (st : FeederState) (s : Sample) (t0 : ℚ)
    (hse : cfg.scaleEnabled = true) (hme : cfg.motionEnabled = true)
    (hp : st.bird_present = false) (ha : st.bird_approaching = true)
    (ht : st.approach_time = some t0)
    (hmd : motionDetected cfg s = true) (hwd : weightDetected cfg s = false)
    (hw : cfg.scaleWaitTime < s.now - t0) :
    read_sensors cfg st s =
      ({ st with bird_present := true, bird_approaching := false, no_motion_frames := 0 },
       some (.landed s.weight "motion-only")) := by
  simp [read_sensors, hse, hme, hp, ha, ht, hmd, hwd, hw]

/-- Dual mode, `Approaching`, motion without weight, still within the wait
budget: no state change, no event (the inner `if`/`elif` chain falls through). -/
theorem step_approach_within (cfg : Config) (st : FeederState) (s : Sample) (t0 : ℚ)
    (hse : cfg.scaleEnabled = true) (hme : cfg.motionEnabled = true)
    (hp : st.bird_present = false) (ha : st.bird_approaching = true)
    (ht : st.approach_time = some t0)
    (hmd : motionDetected cfg s = true) (hwd : weightDetected cfg s = false)
    (hw : ¬(cfg.scaleWaitTime < s.now - t0)) :
    read_sensors cfg st s = (st, none) := by
  simp [read_sensors, hse, hme, hp, ha, ht, hmd, hwd, hw]

/-- Dual mode, not `Present`, neither motion nor weight qualifying: the tick
falls through every branch and changes nothing. -/
theorem step_notPresent_miss (cfg : Config) (st : FeederState) (s : Sample)
    (hse : cfg.scaleEnabled = true) (hme : cfg.motionEnabled = true)
    (hp : st.bird_present = false)
    (hmd : motionDetected cfg s = false) (hwd : weightDetected cfg s = false) :
    read_sensors cfg st s = (st, none) := by
  simp [read_sensors, hse, hme, hp, hmd, hwd]

/-- Dual mode, not `Present`, qualifying weight: enter `Present` directly and
emit `Landed{weight, "scale"}` (lines 221-225), from `Idle` or `Approaching`. -/
theorem step_weight_lands (cfg : Config) (st : FeederState) (s : Sample)
    (hse : cfg.scaleEnabled = true) (hme : cfg.motionEnabled = true)
    (hp : st.bird_present = false) (hwd : weightDetected cfg s = true) :
    read_sensors cfg st s =
      ({ st with bird_present := true, bird_approaching := false, no_motion_frames := 0 },
       some (.landed s.weight "scale")) := by
  simp [read_sensors, hse, hme, hp, hwd]

/-- Either mode, `Present`, no qualifying reading: the absence streak is
incremented, and once it reaches `FRAMES_BEFORE_DEPARTURE` the engine emits
`Left` and resets to `Idle` (dual lines 228-235, single lines 249-254).
Stated for states with `bird_approaching = false`, which is the only way
`Present` is ever reached. -/
theorem step_present_miss (cfg : Config) (st : FeederState) (s : Sample)
    (hp : st.bird_present = true) (ha : st.bird_approaching = false)
    (hmd : motionDetected cfg s = false) (hwd : weightDetected cfg s = false) :
    read_sensors cfg st s =
      if cfg.framesBeforeDeparture ≤ st.no_motion_frames + 1 then
        ({ st with bird_present := false, no_motion_frames := 0 }, some .left)
      else
        ({ st with no_motion_frames := st.no_motion_frames + 1 }, none) := by
  obtain ⟨bp, ba, nmf, at0⟩ := st
  simp only at hp ha
  subst hp ha
  by_cases hmode : cfg.scaleEnabled && cfg.motionEnabled <;>
    simp [read_sensors, hmode, hmd, hwd]

/-- Either mode, `Present`, qualifying reading on at least one channel: the
absence streak resets to 0 and no event is emitted (dual line 237, single
line 257). -/
theorem step_present_hit (cfg : Config) (st : FeederState) (s : Sample)
    (hp : st.bird_present = true)
    (hhit : motionDetected cfg s = true ∨ weightDetected cfg s = true) :
    read_sensors cfg st s = ({ st with no_motion_frames := 0 }, none) := by
  cases hmd : motionDetected cfg s <;> cases hwd : weightDetected cfg s <;>
    by_cases hmode : cfg.scaleEnabled && cfg.motionEnabled <;>
    simp_all [read_sensors]

/-- Running a batch of ticks that each individually change nothing changes
nothing. -/
theorem runTicks_noChange (cfg : Config) (st : FeederState) (l : List Sample)
    (h : ∀ s ∈ l, read_sensors cfg st s = (st, none)) :
    runTicks cfg st l = (st, []) := by
  induction l with
  | nil => rfl
  | cons s rest ih =>
    rw [runTicks_cons, h s (List.mem_cons_self s rest)]
    simp only [Option.toList_none, List.nil_append]
    rw [ih (fun s' hs' => h s' (List.mem_cons_of_mem s hs'))]

/-- `runTicks` over an appended sample list runs the two parts in sequence. -/
theorem runTicks_append (cfg : Config) (st : FeederState) (l1 l2 : List Sample) :
    runTicks cfg st (l1 ++ l2) =
      ((runTicks cfg (runTicks cfg st l1).1 l2).1,
       (runTicks cfg st l1).2 ++ (runTicks cfg (runTicks cfg st l1).1 l2).2) := by
  induction l1 generalizing st with
  | nil => simp [runTicks_nil]
  | cons s rest ih =>
    simp only [List.cons_append, runTicks_cons, ih]
    simp [List.append_assoc]

/-- While `Present` with `bird_approaching = false`, a run of consecutive
no-reading ticks too short to trigger departure only advances the absence
streak and emits nothing. -/
theorem runTicks_present_miss (cfg : Config) (st : FeederState) (l : List Sample)
    (hp : st.bird_present = true) (ha : st.bird_approaching = false)
    (hmiss : ∀ s ∈ l, motionDetected cfg s = false ∧ weightDetected cfg s = false)
    (hlen : st.no_motion_frames + l.length < cfg.framesBeforeDeparture) :
    runTicks cfg st l = ({ st with no_motion_frames := st.no_motion_frames + l.length }, []) := by
  induction l generalizing st with
  | nil => simp [runTicks_nil]
  | cons s rest ih =>
    obtain ⟨hmd, hwd⟩ := hmiss s (List.mem_cons_self s rest)
    have hnotyet : ¬(cfg.framesBeforeDeparture ≤ st.no_motion_frames + 1) := by
      simp only [List.length_cons] at hlen; omega
    rw [runTicks_cons, step_present_miss cfg st s hp ha hmd hwd]
    simp only [if_neg hnotyet, Option.toList_none, List.nil_append]
    rw [ih { st with no_motion_frames := st.no_motion_frames + 1 } hp ha
        (fun s' hs' => hmiss s' (List.mem_cons_of_mem s hs'))
        (by simp only [List.length_cons] at hlen ⊢; omega)]
    simp only [List.length_cons, Prod.mk.injEq, and_true, FeederState.mk.injEq,
      true_and]
    omega

/-- One tick preserves the mutual exclusion of `bird_present` and
`bird_approaching`: in dual mode every branch that sets one of them clears or
keeps the other false, and in single-sensor mode `bird_approaching` is never
touched, so it stays false from initialization. -/
theorem step_mutex (cfg : Config) (st : FeederState) (s : Sample)
    (h1 : (st.bird_present && st.bird_approaching) = false)
    (h2 : (cfg.scaleEnabled && cfg.motionEnabled) = false →
      st.bird_approaching = false) :
    ((read_sensors cfg st s).1.bird_present &&
     (read_sensors cfg st s).1.bird_approaching) = false ∧
    ((cfg.scaleEnabled && cfg.motionEnabled) = false →
     (read_sensors cfg st s).1.bird_approaching = false) := by
  unfold read_sensors
  split_ifs <;> simp_all

/-- `Config` for departure tests: dual mode with `FRAMES_BEFORE_DEPARTURE = 2`. -/
def depCfg : Config := { dualCfg with framesBeforeDeparture := 2 }

/-! ## Claim theorems -/

/-- C2: for every sequence of ticks in either mode, starting from the initial
state, the pair (`bird_present`, `bird_approaching`) only ever takes the three
values encoding `Idle`, `Approaching`, `Present` — the two booleans are never
simultaneously true, so the total tick function `read_sensors` never produces
an inconsistent configuration. -/
theorem C2_phase_invariant (cfg : Config) (samples : List Sample) :
    ((runTicks cfg initState samples).1.bird_present,
     (runTicks cfg initState samples).1.bird_approaching) ∈
      [(false, false), (false, true), (true, false)] := by
  have key : ∀ (l : List Sample) (st : FeederState),
      (st.bird_present && st.bird_approaching) = false →
      ((cfg.scaleEnabled && cfg.motionEnabled) = false →
        st.bird_approaching = false) →
      ((runTicks cfg st l).1.bird_present &&
       (runTicks cfg st l).1.bird_approaching) = false := by
    intro l
    induction l with
    | nil => intro st h1 _; simpa [runTicks_nil] using h1
    | cons s rest ih =>
      intro st h1 h2
      rw [runTicks_cons]
      exact ih _ (step_mutex cfg st s h1 h2).1 (step_mutex cfg st s h1 h2).2
  have h := key samples initState rfl (fun _ => rfl)
  rcases hb : (runTicks cfg initState samples).1.bird_present <;>
    rcases ha : (runTicks cfg initState samples).1.bird_approaching <;>
    simp_all

/-- C3: while `Present` (in either mode, with the approaching flag clear as it
always is in `Present`), running `k < DEPARTURE_FRAMES` consecutive
no-reading ticks advances the absence streak to `k` and emits nothing;
running exactly `DEPARTURE_FRAMES` of them emits exactly one `Left` and
returns to `Idle` with the streak reset to 0; and any tick with a qualifying
reading while `Present` resets the streak to 0 and emits no event. -/
theorem C3_departure_debounce (cfg : Config) (st : FeederState) (l : List Sample)
    (hp : st.bird_present = true) (ha : st.bird_approaching = false)
    (h0 : st.no_motion_frames = 0) (hN : 1 ≤ cfg.framesBeforeDeparture)
    (hmiss : ∀ s ∈ l, motionDetected cfg s = false ∧ weightDetected cfg s = false) :
    (l.length < cfg.framesBeforeDeparture →
      runTicks cfg st l = ({ st with no_motion_frames := l.length }, []))
    ∧ (l.length = cfg.framesBeforeDeparture →
      runTicks cfg st l =
        ({ st with bird_present := false, no_motion_frames := 0 }, [.left]))
    ∧ (∀ (st' : FeederState) (s : Sample), st'.bird_present = true →
        motionDetected cfg s = true ∨ weightDetected cfg s = true →
        read_sensors cfg st' s = ({ st' with no_motion_frames := 0 }, none)) := by
  refine ⟨?_, ?_, fun st' s hp' hh => step_present_hit cfg st' s hp' hh⟩
  · intro hlt
    have h := runTicks_present_miss cfg st l hp ha hmiss (by omega)
    simpa [h0] using h
  · intro heq
    rcases List.eq_nil_or_concat l with rfl | ⟨l', s, rfl⟩
    · simp at heq; omega
    · simp only [List.concat_eq_append] at heq hmiss ⊢
      have hmiss' : ∀ x ∈ l', motionDetected cfg x = false ∧ weightDetected cfg x = false :=
        fun x hx => hmiss x (by simp [hx])
      have hlen' : st.no_motion_frames + l'.length < cfg.framesBeforeDeparture := by
        simp only [List.length_append, List.length_cons, List.length_nil] at heq
        omega
      obtain ⟨hmd, hwd⟩ := hmiss s (by simp)
      have hrun1 := runTicks_present_miss cfg st l' hp ha hmiss' hlen'
      have hstep : read_sensors cfg
          { st with no_motion_frames := st.no_motion_frames + l'.length } s =
          ({ st with bird_present := false, no_motion_frames := 0 }, some .left) := by
        rw [step_present_miss cfg _ s (by simpa using hp) (by simpa using ha) hmd hwd]
        have hfire : cfg.framesBeforeDeparture ≤
            ({ st with no_motion_frames := st.no_motion_frames + l'.length} :
              FeederState).no_motion_frames + 1 := by
          simp only [List.length_append, List.length_cons, List.length_nil] at heq
          simp only
          omega
        rw [if_pos hfire]
      rw [runTicks_append, hrun1]
      simp [runTicks_cons, runTicks_nil, hstep]

/-- C9: in dual-sensor mode, a tick in `Approaching` with neither sensor
qualifying changes nothing; from `Approaching` the next phase is always
`Approaching` or `Present`, never `Idle`; and a run of ticks that all have
both signals non-qualifying leaves the engine in `Approaching` forever with
no events. -/
theorem C9_approaching_no_exit (cfg : Config) (st : FeederState)
    (hse : cfg.scaleEnabled = true) (hme : cfg.motionEnabled = true)
    (hp : st.bird_present = false) (ha : st.bird_approaching = true) :
    (∀ s : Sample, motionDetected cfg s = false → weightDetected cfg s = false →
        read_sensors cfg st s = (st, none))
    ∧ (∀ s : Sample, (read_sensors cfg st s).1.bird_approaching = true ∨
        (read_sensors cfg st s).1.bird_present = true)
    ∧ (∀ l : List Sample,
        (∀ s ∈ l, motionDetected cfg s = false ∧ weightDetected cfg s = false) →
        runTicks cfg st l = (st, [])) := by
  refine ⟨fun s hmd hwd => step_notPresent_miss cfg st s hse hme hp hmd hwd, ?_, ?_⟩
  · intro s
    unfold read_sensors
    split_ifs <;> simp_all
  · intro l h
    exact runTicks_noChange cfg st l
      (fun s hs => step_notPresent_miss cfg st s hse hme hp (h s hs).1 (h s hs).2)

/-- C5: in dual-sensor mode, a qualifying weight reading while not `Present`
(i.e. while `Idle` or `Approaching`) moves the engine to `Present` and emits
exactly one `Landed{weight, "scale"}`; a qualifying motion reading without
weight while `Idle` enters `Approaching`, records `approach_started_at = now`,
and emits nothing; and the scenario of `1 + |l|` motion-only ticks within the
wait budget followed by a weight tick runs `Idle → Approaching → Present`
emitting exactly one `Landed{source = "scale"}`. -/
theorem C5_scale_landing (cfg : Config)
    (hse : cfg.scaleEnabled = true) (hme : cfg.motionEnabled = true) :
    (∀ (st : FeederState) (s : Sample), st.bird_present = false →
      weightDetected cfg s = true →
      read_sensors cfg st s =
        ({ st with bird_present := true, bird_approaching := false,
                   no_motion_frames := 0 },
         some (.landed s.weight "scale")))
    ∧ (∀ (st : FeederState) (s : Sample), st.bird_present = false →
      st.bird_approaching = false → motionDetected cfg s = true →
      weightDetected cfg s = false →
      read_sensors cfg st s =
        ({ st with bird_approaching := true, approach_time := some s.now }, none))
    ∧ (∀ (s0 : Sample) (l : List Sample) (send : Sample),
      motionDetected cfg s0 = true → weightDetected cfg s0 = false →
      (∀ s ∈ l, motionDetected cfg s = true ∧ weightDetected cfg s = false ∧
        ¬(cfg.scaleWaitTime < s.now - s0.now)) →
      weightDetected cfg send = true →
      runTicks cfg initState (s0 :: l ++ [send]) =
        ({ bird_present := true, bird_approaching := false, no_motion_frames := 0,
           approach_time := some s0.now },
         [.landed send.weight "scale"])) := by
  refine ⟨fun st s hp hwd => step_weight_lands cfg st s hse hme hp hwd,
          fun st s hp ha hmd hwd => step_idle_approach cfg st s hse hme hp ha hmd hwd,
          fun s0 l send hmd0 hwd0 hl hwend => ?_⟩
  have h0 : read_sensors cfg initState s0 =
      ({ initState with bird_approaching := true, approach_time := some s0.now }, none) :=
    step_idle_approach cfg initState s0 hse hme rfl rfl hmd0 hwd0
  have hmid : runTicks cfg
      { initState with bird_approaching := true, approach_time := some s0.now } l =
      ({ initState with bird_approaching := true, approach_time := some s0.now }, []) := by
    refine runTicks_noChange cfg _ l (fun s hs => ?_)
    exact step_approach_within cfg _ s s0.now hse hme rfl rfl rfl
      (hl s hs).1 (hl s hs).2.1 (hl s hs).2.2
  have hlast : read_sensors cfg
      { initState with bird_approaching := true, approach_time := some s0.now } send =
      ({ bird_present := true, bird_approaching := false, no_motion_frames := 0,
         approach_time := some s0.now },
       some (.landed send.weight "scale")) := by
    rw [step_weight_lands cfg _ send hse hme rfl hwend]
  simp only [runTicks_cons, h0, runTicks_append, hmid, runTicks_nil,
    Option.toList_none, List.nil_append]
  simp [runTicks_cons, runTicks_nil, hlast]

/-- C1 counterexample: the claim asserts that from `Approaching` with
`weight_hit` false the engine lands via the timeout at the first tick where
`now − approach_started_at > APPROACH_WAIT`, for *every* such tick sequence.
In the code the timeout is only examined inside the
`motion_detected and not weight_detected` branch: here the engine enters
`Approaching` at time 0 (`SCALE_WAIT_TIME = 1`), and the next tick at time 10
has no qualifying motion and no weight, so the engine stays in `Approaching`
and emits nothing, although `now − approach_started_at = 10 > 1`. -/
theorem C1_counterexample :
    runTicks dualCfg initState
      [{ weight := none, motion := 2000, now := 0 },
       { weight := none, motion := 0, now := 10 }] =
      ({ bird_present := false, bird_approaching := true, no_motion_frames := 0,
         approach_time := some 0 }, []) := by
  decide

/-- C1 (amended): in dual-sensor mode, a tick in `Approaching` with
`weight_hit` false transitions to `Present` and emits
`Landed{weight, "motion-only"}` iff `motion_hit` holds on that tick and
`now − approach_started_at` exceeds `SCALE_WAIT_TIME`; otherwise the tick
leaves the state unchanged and emits nothing.  Consequently, with
`motion_hit` held true and `weight_hit` false throughout, exactly one
`Landed{"motion-only"}` is emitted, at the first tick past the timeout and
never before. -/
theorem C1_motion_only_timeout (cfg : Config)
    (hse : cfg.scaleEnabled = true) (hme : cfg.motionEnabled = true) :
    (∀ (st : FeederState) (s : Sample) (t0 : ℚ), st.bird_present = false →
      st.bird_approaching = true → st.approach_time = some t0 →
      weightDetected cfg s = false →
      read_sensors cfg st s =
        if motionDetected cfg s = true ∧ cfg.scaleWaitTime < s.now - t0 then
          ({ st with bird_present := true, bird_approaching := false,
                     no_motion_frames := 0 },
           some (.landed s.weight "motion-only"))
        else (st, none))
    ∧ (∀ (s0 : Sample) (l : List Sample) (sT : Sample),
      motionDetected cfg s0 = true → weightDetected cfg s0 = false →
      (∀ s ∈ l, motionDetected cfg s = true ∧ weightDetected cfg s = false ∧
        ¬(cfg.scaleWaitTime < s.now - s0.now)) →
      motionDetected cfg sT = true → weightDetected cfg sT = false →
      cfg.scaleWaitTime < sT.now - s0.now →
      runTicks cfg initState (s0 :: l ++ [sT]) =
        ({ bird_present := true, bird_approaching := false, no_motion_frames := 0,
           approach_time := some s0.now },
         [.landed sT.weight "motion-only"])) := by
  constructor
  · intro st s t0 hp ha ht hwd
    by_cases hc : motionDetected cfg s = true ∧ cfg.scaleWaitTime < s.now - t0
    · rw [if_pos hc]
      exact step_approach_timeout cfg st s t0 hse hme hp ha ht hc.1 hwd hc.2
    · rw [if_neg hc]
      by_cases hmd : motionDetected cfg s = true
      · exact step_approach_within cfg st s t0 hse hme hp ha ht hmd hwd
          (fun hw => hc ⟨hmd, hw⟩)
      · exact step_notPresent_miss cfg st s hse hme hp
          (by simpa using hmd) hwd
  · intro s0 l sT hmd0 hwd0 hl hmdT hwdT hwT
    have h0 : read_sensors cfg initState s0 =
        ({ initState with bird_approaching := true, approach_time := some s0.now },
         none) :=
      step_idle_approach cfg initState s0 hse hme rfl rfl hmd0 hwd0
    have hmid : runTicks cfg
        { initState with bird_approaching := true, approach_time := some s0.now } l =
        ({ initState with bird_approaching := true, approach_time := some s0.now },
         []) := by
      refine runTicks_noChange cfg _ l (fun s hs => ?_)
      exact step_approach_within cfg _ s s0.now hse hme rfl rfl rfl
        (hl s hs).1 (hl s hs).2.1 (hl s hs).2.2
    have hlast : read_sensors cfg
        { initState with bird_approaching := true, approach_time := some s0.now } sT =
        ({ bird_present := true, bird_approaching := false, no_motion_frames := 0,
           approach_time := some s0.now },
         some (.landed sT.weight "motion-only")) := by
      rw [step_approach_timeout cfg _ sT s0.now hse hme rfl rfl rfl hmdT hwdT hwT]
    simp only [runTicks_cons, h0, runTicks_append, hmid, runTicks_nil,
      Option.toList_none, List.nil_append]
    simp [runTicks_cons, runTicks_nil, hlast]

/-- C6 counterexample: the claim's concrete example (PHOTO_COOLDOWN = 5 s,
captures requested at t = 0 s, 3 s, 6 s) asserts the second request is
suppressed.  In the code the cooldown test is the Python truthiness of
`self.last_photo_time and ...`; after a successful capture at `t = 0` the
stored timestamp `0.0` is falsy, so the request at `t = 3` is NOT suppressed:
the photo is taken and the timestamp becomes 3. -/
theorem C6_counterexample :
    take_photo dualCfg ((take_photo dualCfg none 0 true).2) 3 true = (true, some 3) := by
  simp [take_photo, dualCfg]

/-- C6 (amended): a requested capture is suppressed exactly when a previous
successful capture exists whose stored timestamp is truthy (≠ 0.0, Python's
float truthiness) and less than `PHOTO_COOLDOWN` has elapsed since it,
independent of how many `Landed` events occurred in between; an unsuccessful
request (suppressed or failed) never updates the last-capture timestamp; and
with `PHOTO_COOLDOWN = 5` and captures requested at the nonzero times
t = 1 s, 4 s, 7 s, the first and third succeed and the second is suppressed. -/
theorem C6_capture_gate :
    (∀ (cfg : Config) (last : Option ℚ) (now : ℚ),
      (take_photo cfg last now true).1 = false ↔
        ∃ t, last = some t ∧ t ≠ 0 ∧ now - t < cfg.photoCooldown)
    ∧ (∀ (cfg : Config) (last : Option ℚ) (now : ℚ) (ok : Bool),
      (take_photo cfg last now ok).1 = false → (take_photo cfg last now ok).2 = last)
    ∧ (take_photo dualCfg none 1 true = (true, some 1)
       ∧ take_photo dualCfg (some 1) 4 true = (false, some 1)
       ∧ take_photo dualCfg (some 1) 7 true = (true, some 7)) := by
  refine ⟨?_, ?_, ?_, ?_, ?_⟩
  · intro cfg last now
    cases last with
    | none => simp [take_photo]
    | some t =>
      by_cases h1 : t = 0 <;> by_cases h2 : now - t < cfg.photoCooldown <;>
        simp [take_photo, h1, h2]
  · intro cfg last now ok h
    unfold take_photo at h ⊢
    split_ifs at h ⊢ <;> simp_all
  · simp [take_photo]
  · have h1 : (1:ℚ) ≠ 0 := by norm_num
    have h2 : (4:ℚ) - 1 < dualCfg.photoCooldown := by
      simp only [dualCfg]; norm_num
    simp [take_photo, h1, h2]
  · have h2 : ¬((7:ℚ) - 1 < dualCfg.photoCooldown) := by
      simp only [dualCfg]; norm_num
    simp [take_photo, h2]

/-- C4: feeding the reader the lines `READY`, `WEIGHT:12.34`,
`ERROR:NO_READING`, `WEIGHT:bogus`, `WEIGHT:9.01` from a fresh link yields
`get_weight()` values `None, 12.34, 12.34, 12.34, 9.01` after each line;
moreover a line without the `WEIGHT:` prefix never changes the published
value, and a `WEIGHT:` line whose payload fails to parse is ignored. -/
theorem C4_reader_trace :
    processLines none ["READY".data] = none
    ∧ processLines none ["READY".data, "WEIGHT:12.34".data] = some (617/50)
    ∧ processLines none ["READY".data, "WEIGHT:12.34".data,
        "ERROR:NO_READING".data] = some (617/50)
    ∧ processLines none ["READY".data, "WEIGHT:12.34".data,
        "ERROR:NO_READING".data, "WEIGHT:bogus".data] = some (617/50)
    ∧ processLines none ["READY".data, "WEIGHT:12.34".data,
        "ERROR:NO_READING".data, "WEIGHT:bogus".data, "WEIGHT:9.01".data] =
        some (901/100)
    ∧ (∀ (latest : Option ℚ) (line : List Char),
        ("WEIGHT:".data).isPrefixOf line = false → processLine latest line = latest)
    ∧ (∀ (latest : Option ℚ) (line : List Char),
        parseFloat ((splitChar ':' line).getD 1 []) = none →
        processLine latest line = latest) := by
  refine ⟨?_, ?_, ?_, ?_, ?_, ?_, ?_⟩
  · simp +decide [processLines, processLine]
  · simp +decide [processLines, processLine, parseFloat, parseUnsignedFloat, splitChar]
    norm_num
  · simp +decide [processLines, processLine, parseFloat, parseUnsignedFloat, splitChar]
    norm_num
  · simp +decide [processLines, processLine, parseFloat, parseUnsignedFloat, splitChar]
    norm_num
  · simp +decide [processLines, processLine, parseFloat, parseUnsignedFloat, splitChar]
    norm_num
  · intro latest line h
    simp [processLine, h]
  · intro latest line h
    unfold processLine
    split_ifs
    · rw [h]
    · rfl

/-- C7: the motion sample operation returns the count of pixels whose
absolute grayscale difference from the previous stored frame exceeds 30; the
very first successful call returns 0 and stores the frame as baseline; a
camera read failure returns 0 and leaves the stored baseline unchanged; and
every call that successfully reads a frame overwrites the stored previous
frame with the current one. -/
theorem C7_motion_sampler :
    (∀ g : List ℕ, detect_motion none (some g) = (0, some g))
    ∧ (∀ prev : Option (List ℕ), detect_motion prev none = (0, prev))
    ∧ (∀ (p g : List ℕ), detect_motion (some p) (some g) =
        (((g.zip p).filter
            (fun ab => decide (30 < ((ab.1 : ℤ) - (ab.2 : ℤ)).natAbs))).length,
         some g)) := by
  refine ⟨fun g => rfl, fun prev => ?_, fun p g => ?_⟩
  · cases prev <;> rfl
  · simp [detect_motion, List.countP_eq_length_filter]

/-- C8: `tare()` with no connected transport (or no serial handle) is a
no-op — nothing written, no settle sleep, no exception; when connected with a
working transport it writes exactly the command token `TARE` followed by the
line terminator and sleeps the fixed 1-second settle delay; a transport write
error never propagates to the caller; and the settle wait is always bounded
by 1 second, so the call never blocks indefinitely. -/
theorem C8_tare_safe (connected hasSerial writeOk : Bool) :
    (connected = false ∨ hasSerial = false →
      tare connected hasSerial writeOk =
        { wrote := none, settle := 0, raised := false })
    ∧ (connected = true → hasSerial = true → writeOk = true →
      tare connected hasSerial writeOk =
        { wrote := some "TARE\n".data, settle := 1, raised := false })
    ∧ (tare connected hasSerial writeOk).raised = false
    ∧ (tare connected hasSerial writeOk).settle ≤ 1 := by
  cases connected <;> cases hasSerial <;> cases writeOk <;>
    refine ⟨?_, ?_, ?_, ?_⟩ <;> norm_num [tare]

/-- Splitting at a separator character: if `f` is free of the separator, the
first field of `splitChar c (f ++ c :: rest)` is exactly `f`. -/
theorem splitChar_sep_append (c : Char) (f rest : List Char) (h : c ∉ f) :
    splitChar c (f ++ c :: rest) = f :: splitChar c rest := by
  induction f with
  | nil => simp [splitChar]
  | cons x xs ih =>
    have hx : ¬(x = c) := fun e => h (by simp [e])
    have h' : c ∉ xs := fun e => h (List.mem_cons_of_mem _ e)
    simp only [List.cons_append, splitChar, if_neg hx, List.append_eq]
    rw [ih h']

/-- C10: the reader parses a `WEIGHT:` line by splitting on *every* colon and
converting only the field immediately after the tag, so any line
`WEIGHT:<f>:<rest>` whose `<f>` parses as a float publishes `<f>` as the
latest weight instead of being rejected as malformed. -/
theorem C10_split_all_colons (f rest : List Char) (q : ℚ) (latest : Option ℚ)
    (hfc : ':' ∉ f) (hq : parseFloat f = some q) :
    processLine latest ("WEIGHT:".data ++ f ++ ':' :: rest) = some q := by
  have hpre : ("WEIGHT:".data).isPrefixOf ("WEIGHT:".data ++ (f ++ ':' :: rest)) = true := by
    rw [List.isPrefixOf_iff_prefix]
    exact List.prefix_append _ _
  have hsplit : splitChar ':' ("WEIGHT:".data ++ (f ++ ':' :: rest)) =
      "WEIGHT".data :: f :: splitChar ':' rest := by
    rw [show "WEIGHT:".data ++ (f ++ ':' :: rest) =
          "WEIGHT".data ++ ':' :: (f ++ ':' :: rest) by simp,
        splitChar_sep_append ':' "WEIGHT".data _ (by decide),
        splitChar_sep_append ':' f rest hfc]
  rw [show ("WEIGHT:".data ++ f ++ ':' :: rest) =
      ("WEIGHT:".data ++ (f ++ ':' :: rest)) by simp]
  unfold processLine
  rw [if_pos hpre, hsplit]
  simp [hq]

/-! ## Witnesses: each hypothesis-bearing claim theorem applied at a concrete input -/

/-- Witness for C3 on `depCfg` (departure after 2 no-reading ticks): from a
`Present` state, two miss ticks emit exactly one `Left` and reset to `Idle`. -/
theorem C3_departure_debounce_witness :
    runTicks depCfg ⟨true, false, 0, none⟩
      [⟨none, 0, 0⟩, ⟨none, 0, 1⟩] = (⟨false, false, 0, none⟩, [Event.left]) := by
  have h := (C3_departure_debounce depCfg ⟨true, false, 0, none⟩
    [⟨none, 0, 0⟩, ⟨none, 0, 1⟩] rfl rfl rfl (by decide) (by decide)).2.1 (by decide)
  simpa using h

/-- Witness for C5: a motion-only tick then a weight tick runs
`Idle → Approaching → Present` with exactly one scale landing. -/
theorem C5_scale_landing_witness :
    runTicks dualCfg initState [⟨none, 2000, 0⟩, ⟨some 10, 0, 1⟩] =
      (⟨true, false, 0, some 0⟩, [Event.landed (some 10) "scale"]) := by
  have h := (C5_scale_landing dualCfg rfl rfl).2.2 ⟨none, 2000, 0⟩ [] ⟨some 10, 0, 1⟩
    (by decide) (by decide) (by simp) (by decide)
  simpa using h

/-- Witness for C1 (amended): motion-only ticks at times 0 and 2 with
`SCALE_WAIT_TIME = 1` land via the timeout with one motion-only event. -/
theorem C1_motion_only_timeout_witness :
    runTicks dualCfg initState [⟨none, 2000, 0⟩, ⟨none, 2000, 2⟩] =
      (⟨true, false, 0, some 0⟩, [Event.landed none "motion-only"]) := by
  have h := (C1_motion_only_timeout dualCfg rfl rfl).2 ⟨none, 2000, 0⟩ []
    ⟨none, 2000, 2⟩ (by decide) (by decide) (by simp) (by decide) (by decide)
    (by norm_num [dualCfg])
  simpa using h

/-- Witness for C6 (amended): a suppressed request leaves the last-capture
timestamp unchanged. -/
theorem C6_capture_gate_witness :
    (take_photo dualCfg (some 1) 4 true).2 = some 1 := by
  refine C6_capture_gate.2.1 dualCfg (some 1) 4 true ?_
  simp [take_photo, dualCfg]
  norm_num

/-- Witness for C4: a non-`WEIGHT:` line leaves the published value unchanged. -/
theorem C4_reader_trace_witness :
    processLine (some 5) "READY".data = some 5 :=
  C4_reader_trace.2.2.2.2.2.1 (some 5) "READY".data (by decide)

/-- Witness for C8: disconnected tare is a no-op; connected tare writes
`TARE\n` and settles 1 second. -/
theorem C8_tare_safe_witness :
    tare false true true = { wrote := none, settle := 0, raised := false } ∧
    tare true true true = { wrote := some "TARE\n".data, settle := 1, raised := false } :=
  ⟨(C8_tare_safe false true true).1 (Or.inl rfl),
   (C8_tare_safe true true true).2.1 rfl rfl rfl⟩

/-- Witness for C9: in `Approaching`, a tick with no qualifying signal changes
nothing even though `now − approach_started_at = 10` far exceeds the wait. -/
theorem C9_approaching_no_exit_witness :
    read_sensors dualCfg ⟨false, true, 0, some 0⟩ ⟨none, 0, 10⟩ =
      (⟨false, true, 0, some 0⟩, none) :=
  (C9_approaching_no_exit dualCfg ⟨false, true, 0, some 0⟩ rfl rfl rfl rfl).1
    ⟨none, 0, 10⟩ (by decide) (by decide)

/-- Witness for C10: `WEIGHT:1.5:junk` publishes 1.5. -/
theorem C10_split_all_colons_witness :
    processLine none "WEIGHT:1.5:junk".data = some (3/2 : ℚ) := by
  have h := C10_split_all_colons "1.5".data "junk".data (3/2) none (by decide)
    (by simp +decide [parseFloat, parseUnsignedFloat, splitChar]
        norm_num)
  rw [show "WEIGHT:1.5:junk".data =
      "WEIGHT:".data ++ "1.5".data ++ ':' :: "junk".data from by decide]
  exact h

end BirdFeederModel
